import Mathlib

/-!
Shallow embedding of the annotation core of `classification_app.py`:
the progress/state-advancement protocol of a manual text-classification
tool.  The database is modelled as an explicit state (`DBState`): the
`classification_progress` table is a list of `ProgressRecord` rows and the
`submissions` table is an append-only list of `SubmissionRecord` rows with
an autoincrement id counter.  Each SQLAlchemy session commit is a pure
state transition; a commit that raises `SQLAlchemyError` is modelled by a
Boolean availability flag (`false` means the commit fails, the session is
rolled back and the state is unchanged).  Timestamps (`datetime.utcnow`)
are passed in as a `Nat` parameter `now`.
-/

/-- Row of the `classification_progress` table
(class `ClassificationProgress` in the source). -/
structure ProgressRecord where
  current_row : Nat
  total_processed : Nat
  total_skipped : Nat
  last_updated : Nat
deriving Repr, DecidableEq

/-- Row of the `submissions` table (class `Submission` in the source). -/
structure SubmissionRecord where
  id : Nat
  text : String
  category : String
  platform : String
  status : String
  timestamp : Nat
deriving Repr, DecidableEq

/-- The persistent database state: the progress table, the append-only
submissions table, and the next autoincrement id for submissions. -/
structure DBState where
  progressTable : List ProgressRecord
  submissions : List SubmissionRecord
  nextId : Nat
deriving Repr, DecidableEq

/-- A database with no rows yet (fresh `init_tables`); autoincrement
ids start at 1. -/
def emptyDB : DBState := ⟨[], [], 1⟩

/-- The four category values hard-wired into the classification buttons of
`main` and listed in the sidebar of the source. -/
def enumCategories : List String := ["religion", "gender", "language_caste", "normal"]

/-- Source `get_progress`: `session.query(ClassificationProgress).first()`;
if no row exists, a zeroed record is added and committed, and the record
found or created is returned. -/
def get_progress (now : Nat) (s : DBState) : ProgressRecord × DBState :=
  match s.progressTable with
  | p :: _ => (p, s)
  | [] =>
      let p : ProgressRecord := ⟨0, 0, 0, now⟩
      (p, { s with progressTable := [p] })

/-- Source `update_progress(current_row, increment_processed,
increment_skipped)`: re-queries the first progress row; if none exists it
reports failure and writes nothing; otherwise it sets `current_row`,
optionally increments each counter, refreshes `last_updated` and commits.
`dbOk = false` models a `SQLAlchemyError` on the commit: the session is
rolled back and `False` is returned. -/
def update_progress (dbOk : Bool) (now : Nat) (new_row : Nat)
    (incProcessed incSkipped : Bool) (s : DBState) : Bool × DBState :=
  match s.progressTable with
  | p :: rest =>
      if dbOk then
        let p1 : ProgressRecord :=
          { p with
            current_row := new_row,
            total_processed := p.total_processed + (if incProcessed then 1 else 0),
            total_skipped := p.total_skipped + (if incSkipped then 1 else 0),
            last_updated := now }
        (true, { s with progressTable := p1 :: rest })
      else (false, s)
  | [] => (false, s)

/-- Source `save_classification(text, category)`: inserts one `Submission`
row with `platform="Reddit"`, `status="pending"` and the current
timestamp, and commits.  `dbOk = false` models a `SQLAlchemyError`:
rollback, return `False`.  No validation of `category` is performed. -/
def save_classification (dbOk : Bool) (now : Nat) (text category : String)
    (s : DBState) : Bool × DBState :=
  if dbOk then
    (true,
      { s with
        submissions := s.submissions ++ [⟨s.nextId, text, category, "Reddit", "pending", now⟩],
        nextId := s.nextId + 1 })
  else (false, s)

/-- Source `get_statistics` category aggregation:
`count(Submission.id) group_by(Submission.category)`, read through
`stats.get(category, 0)` as in the sidebar. -/
def countByCategory (s : DBState) (category : String) : Nat :=
  (s.submissions.filter (fun r => r.category == category)).length

/-- Result of reading the current item in `main`: either the text of row
`current_row` of the CSV, or the completion page
(`current_row >= total_rows`). -/
inductive CurrentItem where
  | item (text : String) : CurrentItem
  | complete : CurrentItem
deriving Repr, DecidableEq

/-- The read `main` performs on each render: `get_progress`, then either
the completion branch (when `current_row >= total_rows`) or
`str(df.iloc[current_row].get('text',''))`. -/
def currentItem (dataset : List String) (now : Nat) (s : DBState) :
    CurrentItem × DBState :=
  let res := get_progress now s
  if res.1.current_row < dataset.length then
    (CurrentItem.item (dataset.getD res.1.current_row ("")), res.2)
  else (CurrentItem.complete, res.2)

/-- A classification button handler in `main` (religion, gender,
language/caste, normal are the four instances, each with its hard-wired
`category` literal): available only when `current_row < total_rows`;
runs `save_classification(text, category)` and, only if that succeeded,
`update_progress(current_row + 1, increment_processed=True)`. -/
def classify (dataset : List String) (category : String)
    (saveOk updOk : Bool) (now : Nat) (s : DBState) : Bool × DBState :=
  let res := get_progress now s
  if res.1.current_row < dataset.length then
    let text := dataset.getD res.1.current_row ("")
    let res2 := save_classification saveOk now text category res.2
    if res2.1 then
      update_progress updOk now (res.1.current_row + 1) true false res2.2
    else (false, res2.2)
  else (false, res.2)

/-- The skip button handler in `main`: available only when
`current_row < total_rows`; runs
`update_progress(current_row + 1, increment_skipped=True)` and creates no
submission. -/
def skip (dataset : List String) (updOk : Bool) (now : Nat) (s : DBState) :
    Bool × DBState :=
  let res := get_progress now s
  if res.1.current_row < dataset.length then
    update_progress updOk now (res.1.current_row + 1) false true res.2
  else (false, res.2)

/-- The jump-to control in the sidebar of `main`: available only when
`current_row < total_rows`; the number input admits only values in
`[0, total_rows - 1]`, and the Go button runs `update_progress(jump_to)`
with neither counter incremented. -/
def jumpTo (dataset : List String) (updOk : Bool) (now : Nat) (row : Int)
    (s : DBState) : Bool × DBState :=
  let res := get_progress now s
  if res.1.current_row < dataset.length then
    if 0 ≤ row ∧ row < (dataset.length : Int) then
      update_progress updOk now row.toNat false false res.2
    else (false, res.2)
  else (false, res.2)

/-- The reset handler in `main` (completion page): queries the first
progress row; if present, sets `current_row`, `total_processed` and
`total_skipped` to 0, refreshes `last_updated` and commits; the
submissions table is not touched.  `dbOk = false` models an exception:
rollback, no change. -/
def reset (dbOk : Bool) (now : Nat) (s : DBState) : Bool × DBState :=
  match s.progressTable with
  | p :: rest =>
      if dbOk then
        (true,
          { s with
            progressTable :=
              { p with current_row := 0, total_processed := 0,
                       total_skipped := 0, last_updated := now } :: rest })
      else (false, s)
  | [] => (false, s)

/-- One user-level mutating action of the annotation flow, with its fault
flags and timestamp. -/
inductive Op where
  | classifyOp (category : String) (saveOk updOk : Bool) (now : Nat)
  | skipOp (updOk : Bool) (now : Nat)
  | resetOp (dbOk : Bool) (now : Nat)
deriving Repr

/-- Apply one action to the database state. -/
def applyOp (dataset : List String) (s : DBState) (op : Op) : DBState :=
  match op with
  | Op.classifyOp c a b n => (classify dataset c a b n s).2
  | Op.skipOp u n => (skip dataset u n s).2
  | Op.resetOp d n => (reset d n s).2

/-- Run a sequence of actions. -/
def runOps (dataset : List String) (s : DBState) (ops : List Op) : DBState :=
  ops.foldl (applyOp dataset) s

/-- The intended progress invariant: every progress row satisfies
`current_row == total_processed + total_skipped`. -/
def progInvB (s : DBState) : Bool :=
  s.progressTable.all (fun p => p.current_row == p.total_processed + p.total_skipped)

/-- Repeated `get_progress` calls (load), keeping only the state. -/
def iterLoad (times : List Nat) (s : DBState) : DBState :=
  times.foldl (fun st t => (get_progress t st).2) s

/-- C1: for every category in the four-value enumeration, a successful
classification (submission commit and progress commit both succeed, a
progress row exists and the cursor is in range) returns `True`, advances
`current_row` by 1, increments `total_processed` by 1, leaves
`total_skipped` unchanged, and appends exactly one submission whose
`category` is the given value and whose `text` is the current CSV row. -/
theorem classify_success_spec (dataset : List String) (s : DBState)
    (p : ProgressRecord) (rest : List ProgressRecord) (category : String) (now : Nat)
    (hcat : category ∈ enumCategories)
    (hp : s.progressTable = p :: rest)
    (hc : p.current_row < dataset.length) :
    classify dataset category true true now s =
      (true,
        ⟨⟨p.current_row + 1, p.total_processed + 1, p.total_skipped, now⟩ :: rest,
         s.submissions ++
           [⟨s.nextId, dataset.getD p.current_row (""), category, "Reddit", "pending", now⟩],
         s.nextId + 1⟩) := by
  simp [classify, get_progress, save_classification, update_progress, hp, hc]

/-- C1 witness: a concrete successful classification. -/
theorem classify_success_spec_witness :
    ("normal" ∈ enumCategories) ∧
    classify ["a", "b"] ("normal") true true 9 ⟨[⟨0, 0, 0, 0⟩], [], 1⟩ =
      (true, ⟨[⟨1, 1, 0, 9⟩], [⟨1, "a", "normal", "Reddit", "pending", 9⟩], 2⟩) :=
  ⟨by decide, by
    simpa using classify_success_spec ["a", "b"] ⟨[⟨0, 0, 0, 0⟩], [], 1⟩
      ⟨0, 0, 0, 0⟩ [] ("normal") 9 (by decide) rfl (by decide)⟩

/-- C2: a successful skip returns `True`, advances `current_row` by 1,
increments `total_skipped` by 1, leaves `total_processed` unchanged, and
appends no submission. -/
theorem skip_success_spec (dataset : List String) (s : DBState)
    (p : ProgressRecord) (rest : List ProgressRecord) (now : Nat)
    (hp : s.progressTable = p :: rest)
    (hc : p.current_row < dataset.length) :
    skip dataset true now s =
      (true,
        ⟨⟨p.current_row + 1, p.total_processed, p.total_skipped + 1, now⟩ :: rest,
         s.submissions, s.nextId⟩) := by
  simp [skip, get_progress, update_progress, hp, hc]

/-- C2 witness: a concrete successful skip. -/
theorem skip_success_spec_witness :
    skip ["a", "b"] true 7 ⟨[⟨0, 2, 0, 0⟩], [], 1⟩ = (true, ⟨[⟨1, 2, 1, 7⟩], [], 1⟩) := by
  simpa using skip_success_spec ["a", "b"] ⟨[⟨0, 2, 0, 0⟩], [], 1⟩
    ⟨0, 2, 0, 0⟩ [] 7 rfl (by decide)

/-- C4: with a progress row present and the page not in the completion
state, a jump to a row inside `[0, datasetLength)` sets `current_row` to
that row and changes neither counter, no submission and no other state;
a jump outside that range fails and leaves the whole state unchanged. -/
theorem jumpTo_spec (dataset : List String) (s : DBState)
    (p : ProgressRecord) (rest : List ProgressRecord) (now : Nat) (row : Int)
    (hp : s.progressTable = p :: rest)
    (hc : p.current_row < dataset.length) :
    (0 ≤ row ∧ row < (dataset.length : Int) →
      jumpTo dataset true now row s =
        (true,
          ⟨⟨row.toNat, p.total_processed, p.total_skipped, now⟩ :: rest,
           s.submissions, s.nextId⟩)) ∧
    (¬ (0 ≤ row ∧ row < (dataset.length : Int)) →
      jumpTo dataset true now row s = (false, s)) := by
  constructor <;> intro h <;>
    simp [jumpTo, get_progress, update_progress, hp, hc, h]

/-- C4 witness: on a three-item dataset, jumping to row 2 succeeds and
sets only the cursor, while jumping to row 5 fails and changes nothing. -/
theorem jumpTo_spec_witness :
    ((0:Int) ≤ 2 ∧ (2:Int) < ((["a", "b", "c"]:List String).length : Int)) ∧
    jumpTo ["a", "b", "c"] true 7 2 ⟨[⟨1, 1, 0, 0⟩], [], 1⟩ =
      (true, ⟨[⟨2, 1, 0, 7⟩], [], 1⟩) ∧
    jumpTo ["a", "b", "c"] true 7 5 ⟨[⟨1, 1, 0, 0⟩], [], 1⟩ =
      (false, ⟨[⟨1, 1, 0, 0⟩], [], 1⟩) := by
  refine ⟨by decide, ?_, ?_⟩
  · simpa using (jumpTo_spec ["a", "b", "c"] ⟨[⟨1, 1, 0, 0⟩], [], 1⟩
      ⟨1, 1, 0, 0⟩ [] 7 2 rfl (by decide)).1 (by decide)
  · simpa using (jumpTo_spec ["a", "b", "c"] ⟨[⟨1, 1, 0, 0⟩], [], 1⟩
      ⟨1, 1, 0, 0⟩ [] 7 5 rfl (by decide)).2 (by decide)

/-- C5: a successful reset zeroes `current_row`, `total_processed` and
`total_skipped`, and leaves the submissions table untouched, so
`countByCategory` is the same before and after for every category. -/
theorem reset_spec (s : DBState) (p : ProgressRecord)
    (rest : List ProgressRecord) (now : Nat) (category : String)
    (hp : s.progressTable = p :: rest) :
    reset true now s = (true, ⟨⟨0, 0, 0, now⟩ :: rest, s.submissions, s.nextId⟩) ∧
    countByCategory (reset true now s).2 category = countByCategory s category := by
  constructor <;> simp [reset, countByCategory, hp]

/-- C5 witness: a concrete reset keeps the one existing submission and its
category count. -/
theorem reset_spec_witness :
    reset true 9 ⟨[⟨3, 2, 1, 5⟩], [⟨1, "a", "normal", "Reddit", "pending", 4⟩], 2⟩ =
      (true, ⟨[⟨0, 0, 0, 9⟩], [⟨1, "a", "normal", "Reddit", "pending", 4⟩], 2⟩) ∧
    countByCategory
        (reset true 9 ⟨[⟨3, 2, 1, 5⟩], [⟨1, "a", "normal", "Reddit", "pending", 4⟩], 2⟩).2
        ("normal") =
      countByCategory ⟨[⟨3, 2, 1, 5⟩], [⟨1, "a", "normal", "Reddit", "pending", 4⟩], 2⟩
        ("normal") := by
  simpa using reset_spec ⟨[⟨3, 2, 1, 5⟩], [⟨1, "a", "normal", "Reddit", "pending", 4⟩], 2⟩
    ⟨3, 2, 1, 5⟩ [] 9 ("normal") rfl

/-- C6: whenever the cursor has reached the dataset length, the page shows
the terminal completion result without changing any state, and the
mutating actions other than reset (classification, skip, jump) are all
unavailable no-ops that report failure, so repeated reads keep yielding
completion until a reset lowers the cursor. -/
theorem complete_state_spec (dataset : List String) (s : DBState)
    (p : ProgressRecord) (rest : List ProgressRecord) (category : String)
    (saveOk updOk : Bool) (now : Nat) (row : Int)
    (hp : s.progressTable = p :: rest)
    (hc : dataset.length ≤ p.current_row) :
    currentItem dataset now s = (CurrentItem.complete, s) ∧
    classify dataset category saveOk updOk now s = (false, s) ∧
    skip dataset updOk now s = (false, s) ∧
    jumpTo dataset updOk now row s = (false, s) := by
  have hnc : ¬ (p.current_row < dataset.length) := not_lt.mpr hc
  refine ⟨?_, ?_, ?_, ?_⟩ <;>
    simp [currentItem, classify, skip, jumpTo, get_progress, hp, hnc]

/-- C6 witness: with the cursor at the end of a two-item dataset, the read
yields completion and classification, skip and jump do nothing. -/
theorem complete_state_spec_witness :
    ((["a", "b"]:List String).length ≤ 2) ∧
    currentItem ["a", "b"] 7 ⟨[⟨2, 1, 1, 0⟩], [], 1⟩ =
      (CurrentItem.complete, ⟨[⟨2, 1, 1, 0⟩], [], 1⟩) ∧
    classify ["a", "b"] ("normal") true true 7 ⟨[⟨2, 1, 1, 0⟩], [], 1⟩ =
      (false, ⟨[⟨2, 1, 1, 0⟩], [], 1⟩) ∧
    skip ["a", "b"] true 7 ⟨[⟨2, 1, 1, 0⟩], [], 1⟩ =
      (false, ⟨[⟨2, 1, 1, 0⟩], [], 1⟩) ∧
    jumpTo ["a", "b"] true 7 1 ⟨[⟨2, 1, 1, 0⟩], [], 1⟩ =
      (false, ⟨[⟨2, 1, 1, 0⟩], [], 1⟩) :=
  ⟨by decide, complete_state_spec ["a", "b"] ⟨[⟨2, 1, 1, 0⟩], [], 1⟩
    ⟨2, 1, 1, 0⟩ [] ("normal") true true 7 1 rfl (by decide)⟩

/-- C7 counterexample: `save_classification` performs no category
validation, so classifying with the out-of-enumeration category `insult`
does not fail: it returns `True`, persists a submission carrying that
category verbatim, and advances the progress record. -/
theorem classify_no_validation_cex :
    ("insult" ∉ enumCategories) ∧
    classify ["a"] ("insult") true true 5 ⟨[⟨0, 0, 0, 0⟩], [], 1⟩ =
      (true, ⟨[⟨1, 1, 0, 5⟩], [⟨1, "a", "insult", "Reddit", "pending", 5⟩], 2⟩) := by
  decide

/-- C7 amended: the classification path validates nothing: for every
category string, inside the enumeration or not, a classification with
both commits succeeding writes one submission carrying that category
verbatim and advances the progress record; the four-value enumeration is
enforced only by the caller surface, where each button passes one fixed
enumeration literal. -/
theorem classify_any_category_spec (dataset : List String) (s : DBState)
    (p : ProgressRecord) (rest : List ProgressRecord) (category : String) (now : Nat)
    (hp : s.progressTable = p :: rest)
    (hc : p.current_row < dataset.length) :
    classify dataset category true true now s =
      (true,
        ⟨⟨p.current_row + 1, p.total_processed + 1, p.total_skipped, now⟩ :: rest,
         s.submissions ++
           [⟨s.nextId, dataset.getD p.current_row (""), category, "Reddit", "pending", now⟩],
         s.nextId + 1⟩) := by
  simp [classify, get_progress, save_classification, update_progress, hp, hc]

/-- C7 amended witness: a concrete classification with a category outside
the enumeration. -/
theorem classify_any_category_spec_witness :
    classify ["a"] ("insult") true true 5 ⟨[⟨0, 0, 0, 0⟩], [], 1⟩ =
      (true, ⟨[⟨1, 1, 0, 5⟩], [⟨1, "a", "insult", "Reddit", "pending", 5⟩], 2⟩) := by
  simpa using classify_any_category_spec ["a"] ⟨[⟨0, 0, 0, 0⟩], [], 1⟩
    ⟨0, 0, 0, 0⟩ [] ("insult") 5 rfl (by decide)

/-- C8: the submission insert and the progress update are independent
commits with no rollback across them: when the insert succeeds and the
progress commit then fails, the call reports failure, the new submission
stays persisted, and the progress table is exactly as before the call. -/
theorem classify_partial_failure_spec (dataset : List String) (s : DBState)
    (p : ProgressRecord) (rest : List ProgressRecord) (category : String) (now : Nat)
    (hp : s.progressTable = p :: rest)
    (hc : p.current_row < dataset.length) :
    classify dataset category true false now s =
      (false,
        ⟨p :: rest,
         s.submissions ++
           [⟨s.nextId, dataset.getD p.current_row (""), category, "Reddit", "pending", now⟩],
         s.nextId + 1⟩) := by
  simp [classify, get_progress, save_classification, update_progress, hp, hc]

/-- C8 witness: a concrete classification whose progress commit fails
keeps the written submission and the old progress row. -/
theorem classify_partial_failure_spec_witness :
    classify ["a"] ("normal") true false 5 ⟨[⟨0, 0, 0, 0⟩], [], 1⟩ =
      (false, ⟨[⟨0, 0, 0, 0⟩], [⟨1, "a", "normal", "Reddit", "pending", 5⟩], 2⟩) := by
  simpa using classify_partial_failure_spec ["a"] ⟨[⟨0, 0, 0, 0⟩], [], 1⟩
    ⟨0, 0, 0, 0⟩ [] ("normal") 5 rfl (by decide)

/-- Repeated loads on a state whose progress table is nonempty change
nothing. -/
theorem iterLoad_of_nonempty (ts : List Nat) (st : DBState)
    (p : ProgressRecord) (rest : List ProgressRecord)
    (hp : st.progressTable = p :: rest) :
    iterLoad ts st = st := by
  induction ts with
  | nil => rfl
  | cons t ts ih =>
      have hstep : (get_progress t st).2 = st := by
        simp [get_progress, hp]
      calc iterLoad (t :: ts) st = iterLoad ts (get_progress t st).2 := rfl
        _ = iterLoad ts st := by rw [hstep]
        _ = st := ih

/-- C9: the progress load is get-or-create and idempotent: on a store with
no progress row it creates exactly one zeroed row and returns it; a later
load returns that same row and state, and any further sequence of loads
leaves the state fixed, so exactly one progress row ever exists under
load calls. -/
theorem get_progress_get_or_create_spec (s : DBState) (now now2 : Nat)
    (ts : List Nat) (h : s.progressTable = []) :
    (get_progress now s).1 = ⟨0, 0, 0, now⟩ ∧
    (get_progress now s).2.progressTable = [⟨0, 0, 0, now⟩] ∧
    get_progress now2 (get_progress now s).2 =
      ((get_progress now s).1, (get_progress now s).2) ∧
    iterLoad ts (get_progress now s).2 = (get_progress now s).2 := by
  refine ⟨?_, ?_, ?_, ?_⟩
  · simp [get_progress, h]
  · simp [get_progress, h]
  · simp [get_progress, h]
  · exact iterLoad_of_nonempty ts _ ⟨0, 0, 0, now⟩ [] (by simp [get_progress, h])

/-- C9 witness: loading the empty database creates the zeroed singleton
row, and three further loads return it unchanged. -/
theorem get_progress_get_or_create_spec_witness :
    emptyDB.progressTable = [] ∧
    ((get_progress 3 emptyDB).1 = ⟨0, 0, 0, 3⟩ ∧
     (get_progress 3 emptyDB).2.progressTable = [⟨0, 0, 0, 3⟩] ∧
     get_progress 4 (get_progress 3 emptyDB).2 =
       ((get_progress 3 emptyDB).1, (get_progress 3 emptyDB).2) ∧
     iterLoad [5, 6, 7] (get_progress 3 emptyDB).2 = (get_progress 3 emptyDB).2) :=
  ⟨rfl, get_progress_get_or_create_spec emptyDB 3 4 [5, 6, 7] rfl⟩

/-- C10: when no progress row exists, the progress update used by
classification, skip and jump reports failure and writes nothing: it
neither creates the missing row nor changes any cursor or counter, for
every argument combination and even when the database commit would
succeed. -/
theorem update_progress_no_record_spec (s : DBState) (dbOk : Bool)
    (now new_row : Nat) (incProcessed incSkipped : Bool)
    (h : s.progressTable = []) :
    update_progress dbOk now new_row incProcessed incSkipped s = (false, s) := by
  simp [update_progress, h]

/-- C3 counterexample: jumpTo does not preserve the intended invariant
`current_row == total_processed + total_skipped`: from the zeroed progress
record, an in-range jump to row 2 of a three-item dataset succeeds and
leaves the cursor at 2 with both counters still 0. -/
theorem progress_invariant_cex :
    progInvB ⟨[⟨0, 0, 0, 0⟩], [], 1⟩ = true ∧
    (jumpTo ["a", "b", "c"] true 7 2 ⟨[⟨0, 0, 0, 0⟩], [], 1⟩).1 = true ∧
    progInvB (jumpTo ["a", "b", "c"] true 7 2 ⟨[⟨0, 0, 0, 0⟩], [], 1⟩).2 = false := by
  decide

/-- The progress load preserves the progress invariant. -/
theorem get_progress_inv (now : Nat) (s : DBState) (h : progInvB s = true) :
    progInvB (get_progress now s).2 = true := by
  obtain ⟨tab, subs, nid⟩ := s
  cases tab <;> simp_all [get_progress, progInvB]

/-- Each user-level action among classification, skip and reset preserves
the progress invariant, whatever its fault flags. -/
theorem applyOp_preserves_progInv (dataset : List String) (s : DBState) (op : Op)
    (h : progInvB s = true) : progInvB (applyOp dataset s op) = true := by
  obtain ⟨tab, subs, nid⟩ := s
  cases op with
  | classifyOp c a b n =>
      cases tab with
      | nil =>
          cases a <;> cases b <;>
            simp_all [applyOp, classify, get_progress, save_classification,
                      update_progress, progInvB] <;>
            split_ifs <;> simp_all
      | cons p rest =>
          cases a <;> cases b <;>
            simp_all [applyOp, classify, get_progress, save_classification,
                      update_progress, progInvB] <;>
            split_ifs <;> simp_all <;> omega
  | skipOp u n =>
      cases tab with
      | nil =>
          cases u <;>
            simp_all [applyOp, skip, get_progress, update_progress, progInvB] <;>
            split_ifs <;> simp_all
      | cons p rest =>
          cases u <;>
            simp_all [applyOp, skip, get_progress, update_progress, progInvB] <;>
            split_ifs <;> simp_all <;> omega
  | resetOp d n =>
      cases tab with
      | nil => simp_all [applyOp, reset, progInvB]
      | cons p rest =>
          cases d <;> simp_all [applyOp, reset, progInvB]

/-- Sequences of invariant-preserving actions preserve the invariant. -/
theorem runOps_preserves_progInv (dataset : List String) (s : DBState)
    (ops : List Op) (h : progInvB s = true) :
    progInvB (runOps dataset s ops) = true := by
  induction ops generalizing s with
  | nil => exact h
  | cons op ops ih => exact ih _ (applyOp_preserves_progInv dataset s op h)

/-- C3 amended: starting from the freshly created zeroed progress record,
after every sequence of classification, skip and reset actions (with any
outcome of each commit) the invariant
`current_row == total_processed + total_skipped` holds; jumpTo, however,
does not preserve it, since it moves the cursor without touching either
counter. -/
theorem progress_invariant_spec (dataset : List String) (now : Nat)
    (ops : List Op) :
    progInvB (runOps dataset (get_progress now emptyDB).2 ops) = true := by
  apply runOps_preserves_progInv
  apply get_progress_inv
  rfl

/-- C10 witness: a concrete progress update on a store with no progress
row fails and changes nothing. -/
theorem update_progress_no_record_spec_witness :
    update_progress true 5 3 true false ⟨[], [⟨1, "a", "normal", "Reddit", "pending", 2⟩], 2⟩ =
      (false, ⟨[], [⟨1, "a", "normal", "Reddit", "pending", 2⟩], 2⟩) :=
  update_progress_no_record_spec ⟨[], [⟨1, "a", "normal", "Reddit", "pending", 2⟩], 2⟩
    true 5 3 true false rfl
